import Mathlib

/-!
Verification development for the configuration-resolution and
render-orchestration core of the reptar static-site generator.

The definitions below are a shallow embedding of the JavaScript sources:
the config module (class Config with update and get, valueToFunction,
requireLocalModule) and the renderer module (Renderer.renderFileWithPlugins).
External collaborators (the Joi schema validator together with the
lodash defaultsDeep filling step, the node module-lookup machinery,
and the built-in asset-processor modules) are modelled as parameters.
-/

/-! ## Default rules and their sort (file.defaults) -/

/-- Scope of a default rule: an optional source path and optional metadata
mapping, mirroring the scope objects of file.defaults in the configuration. -/
structure DefaultScope where
  path : Option String
  metadata : Option (List (String × Bool))
deriving DecidableEq, Repr

/-- One entry of file.defaults: a scope plus the frontmatter values applied
to files matching that scope. -/
structure DefaultRule where
  scope : DefaultScope
  values : List (String × String)
deriving DecidableEq, Repr

/-- Composite sort key used by Config.update when sorting file.defaults.
First component embeds the lodash iteratee
taking the length of scope.path with the empty string as default for an
absent path; second component embeds the iteratee testing that
scope.metadata is not nullish (booleans sort with false before true,
embedded here as 0 before 1). -/
def defaultSortKey (d : DefaultRule) : Nat × Nat :=
  ((d.scope.path.getD "").length, if d.scope.metadata.isSome then 1 else 0)

/-- Ascending lexicographic comparison on the composite sort keys, the order
by which the lodash sortBy call in Config.update arranges default rules. -/
def defaultRuleLE (a b : DefaultRule) : Prop :=
  (defaultSortKey a).1 < (defaultSortKey b).1
    ∨ ((defaultSortKey a).1 = (defaultSortKey b).1
        ∧ (defaultSortKey a).2 ≤ (defaultSortKey b).2)

instance : DecidableRel defaultRuleLE := fun a b => by
  unfold defaultRuleLE; infer_instance

instance : IsTotal DefaultRule defaultRuleLE :=
  ⟨by intro a b; unfold defaultRuleLE; omega⟩

instance : IsTrans DefaultRule defaultRuleLE :=
  ⟨by intro a b c; unfold defaultRuleLE; omega⟩

instance : IsRefl DefaultRule defaultRuleLE :=
  ⟨by intro a; unfold defaultRuleLE; omega⟩

/-- Embedding of the lodash sortBy call of Config.update on file.defaults:
a stable ascending sort by the composite key. Insertion sort into an
already-sorted tail places an element strictly before every element of
equal key that occurred later in the input, which is exactly the stable
behaviour documented for lodash sortBy. -/
def sortDefaults (l : List DefaultRule) : List DefaultRule :=
  List.insertionSort defaultRuleLE l

/-- Inserting a rule whose key equals k prepends it to the k-filtered
sublist: the inserted rule lands before every equal-key rule already there. -/
theorem filter_orderedInsert_key_eq (x : DefaultRule) (k : Nat × Nat)
    (hx : defaultSortKey x = k) :
    ∀ l : List DefaultRule,
      (List.orderedInsert defaultRuleLE x l).filter
          (fun d => decide (defaultSortKey d = k))
        = x :: l.filter (fun d => decide (defaultSortKey d = k))
  | [] => by simp [List.orderedInsert, hx]
  | y :: tl => by
    by_cases hr : defaultRuleLE x y
    · simp [List.orderedInsert, hr, List.filter, hx]
    · have hyk : defaultSortKey y ≠ k := by
        intro hyk
        exact hr (by unfold defaultRuleLE; rw [hx, hyk]; omega)
      simp only [List.orderedInsert, if_neg hr, List.filter, decide_eq_false hyk]
      exact filter_orderedInsert_key_eq x k hx tl

/-- Inserting a rule whose key differs from k leaves the k-filtered sublist
unchanged. -/
theorem filter_orderedInsert_key_ne (x : DefaultRule) (k : Nat × Nat)
    (hx : defaultSortKey x ≠ k) :
    ∀ l : List DefaultRule,
      (List.orderedInsert defaultRuleLE x l).filter
          (fun d => decide (defaultSortKey d = k))
        = l.filter (fun d => decide (defaultSortKey d = k))
  | [] => by simp [List.orderedInsert, hx]
  | y :: tl => by
    by_cases hr : defaultRuleLE x y
    · simp [List.orderedInsert, hr, List.filter, decide_eq_false hx]
    · simp only [List.orderedInsert, if_neg hr, List.filter]
      rw [filter_orderedInsert_key_ne x k hx tl]

/-- Stability of sortDefaults: rules of any fixed composite key keep their
original relative order. -/
theorem filter_sortDefaults (k : Nat × Nat) :
    ∀ l : List DefaultRule,
      (sortDefaults l).filter (fun d => decide (defaultSortKey d = k))
        = l.filter (fun d => decide (defaultSortKey d = k))
  | [] => rfl
  | x :: tl => by
    by_cases hx : defaultSortKey x = k
    · show (List.orderedInsert defaultRuleLE x (sortDefaults tl)).filter _ = _
      rw [filter_orderedInsert_key_eq x k hx, filter_sortDefaults k tl]
      simp [List.filter, hx]
    · show (List.orderedInsert defaultRuleLE x (sortDefaults tl)).filter _ = _
      rw [filter_orderedInsert_key_ne x k hx, filter_sortDefaults k tl]
      simp [List.filter, decide_eq_false hx]

/-- Rule A of the default configuration file: scope selects path "./". -/
def ruleA : DefaultRule :=
  { scope := { path := some "./", metadata := none },
    values := [("template", "page"), ("permalink", "/:title/")] }

/-- Rule B of the default configuration file: scope selects path "./_posts". -/
def ruleB : DefaultRule :=
  { scope := { path := some "./_posts", metadata := none },
    values := [("template", "post"), ("permalink", "/:title/")] }

/-- Rule C of the default configuration file: scope selects metadata
draft = true and carries no path. -/
def ruleC : DefaultRule :=
  { scope := { path := none, metadata := some [("draft", true)] },
    values := [("template", "draft")] }

/-- C1: Config.update sorts the declared file.defaults list stably by the
ascending composite key (length of scope.path with an absent path counting
as length 0, then 0 for absent scope.metadata and 1 for present), rules of
equal key keeping their original relative order; on the input order
A (path "./"), B (path "./_posts"), C (metadata only) the sorted order is
C, A, B. -/
theorem c1_defaults_sort :
    (∀ l : List DefaultRule, List.Sorted defaultRuleLE (sortDefaults l))
    ∧ (∀ l : List DefaultRule, List.Perm (sortDefaults l) l)
    ∧ (∀ (l : List DefaultRule) (k : Nat × Nat),
        (sortDefaults l).filter (fun d => decide (defaultSortKey d = k))
          = l.filter (fun d => decide (defaultSortKey d = k)))
    ∧ defaultSortKey ruleA = (2, 0)
    ∧ defaultSortKey ruleB = (8, 0)
    ∧ defaultSortKey ruleC = (0, 1)
    ∧ sortDefaults [ruleA, ruleB, ruleC] = [ruleC, ruleA, ruleB] := by
  refine ⟨fun l => List.sorted_insertionSort defaultRuleLE l,
    fun l => List.perm_insertionSort defaultRuleLE l,
    fun l k => filter_sortDefaults k l, by decide, by decide, by decide, by decide⟩

/-! ## Matching predicates (valueToFunction) -/

/-- Atom of the regular-expression fragment needed for the string case of
valueToFunction: a literal character or the any-character dot. -/
inductive RxAtom where
  | lit (c : Char)
  | dot
deriving DecidableEq, Repr

/-- Translation of one character of a pattern string into a regex atom,
following the JavaScript RegExp reading of the string: a dot is the
any-character metacharacter, any other modelled character is a literal.
The model covers pattern strings built from ordinary characters and dots;
the remaining regex metacharacters are outside the modelled fragment. -/
def charToAtom (c : Char) : RxAtom :=
  if c = '.' then RxAtom.dot else RxAtom.lit c

/-- Test of a single regex atom against a single character. -/
def atomMatches : RxAtom → Char → Bool
  | RxAtom.dot, _ => true
  | RxAtom.lit c, c2 => c == c2

/-- Anchored match of a list of atoms at the start of a character list:
the semantics of candidate.match(regExp) being non-null for a RegExp whose
pattern is a caret followed by the atoms. -/
def atomsMatchList : List RxAtom → List Char → Bool
  | [], _ => true
  | _ :: _, [] => false
  | a :: rest, c :: cs => atomMatches a c && atomsMatchList rest cs

/-- Characters that are metacharacters of JavaScript regular expressions.
A pattern string avoiding all of them reads as a plain literal. -/
def isRegexMetachar (c : Char) : Bool :=
  c ∈ ['.', '*', '+', '?', '^', '$', '(', ')', '[', ']', '\x7b', '\x7d', '|', '\\']

/-- Input domain of valueToFunction: a string, a regular expression
(modelled by its native test semantics), or an already-callable value. -/
inductive MatchValue where
  | str (s : String)
  | regex (test : String → Bool)
  | func (f : String → Bool)

/-- Embedding of valueToFunction from the config module. A string s is
turned into a RegExp whose pattern is a caret followed by s, then the
non-function RegExp is wrapped into the predicate testing that
filePath.match(regExp) is not null; the string case is modelled for
pattern strings within the dot-and-literal fragment. A RegExp input is
wrapped the same way via its native test; an already-callable value is
returned unchanged. -/
def valueToFunction : MatchValue → (String → Bool)
  | MatchValue.str s => fun filePath => atomsMatchList (s.data.map charToAtom) filePath.data
  | MatchValue.regex t => fun filePath => t filePath
  | MatchValue.func f => f

/-- Atom lists arising from metacharacter-free strings perform exactly the
anchored literal test. -/
theorem atomsMatchList_of_no_metachar :
    ∀ (l cs : List Char), (∀ c ∈ l, isRegexMetachar c = false) →
      atomsMatchList (l.map charToAtom) cs = l.isPrefixOf cs
  | [], cs, _ => by cases cs <;> rfl
  | c :: l, [], _ => rfl
  | c :: l, c2 :: cs, h => by
    have hc : c ≠ '.' := by
      intro hdot
      have := h c (List.mem_cons_self c l)
      rw [hdot] at this
      simp [isRegexMetachar] at this
    simp only [List.map, atomsMatchList, List.isPrefixOf, charToAtom, if_neg hc,
      atomMatches]
    rw [atomsMatchList_of_no_metachar l cs (fun c hm => h c (List.mem_cons_of_mem _ hm))]

/-- C3 counterexample: compile(".") applied to "x" returns true although
"x" does not start with the literal string ".". -/
theorem c3_counterexample :
    valueToFunction (MatchValue.str ".") "x" = true
      ∧ (".".data.isPrefixOf "x".data) = false := by
  constructor <;> rfl

/-- C3 (amended): for a pattern string free of regex metacharacters the
compiled predicate is the anchored literal test, returning true exactly
when the candidate starts with the string; in general the string is read
as a regular expression anchored at the start, not as a literal. -/
theorem c3_string_matcher (s : String)
    (hs : ∀ c ∈ s.data, isRegexMetachar c = false) (cand : String) :
    valueToFunction (MatchValue.str s) cand = s.data.isPrefixOf cand.data := by
  show atomsMatchList (s.data.map charToAtom) cand.data = s.data.isPrefixOf cand.data
  exact atomsMatchList_of_no_metachar s.data cand.data hs

/-- C3 witness: the pattern "foo" is metacharacter-free, its compiled
predicate agrees with the anchored literal test on "foobar" and on
"barfoo", returning true and false respectively. -/
theorem c3_string_matcher_witness :
    ((∀ c ∈ "foo".data, isRegexMetachar c = false)
      ∧ valueToFunction (MatchValue.str "foo") "foobar"
          = ("foo".data.isPrefixOf "foobar".data)
      ∧ valueToFunction (MatchValue.str "foo") "barfoo"
          = ("foo".data.isPrefixOf "barfoo".data))
    ∧ valueToFunction (MatchValue.str "foo") "foobar" = true
    ∧ valueToFunction (MatchValue.str "foo") "barfoo" = false :=
  ⟨⟨by decide, c3_string_matcher "foo" (by decide) "foobar",
    c3_string_matcher "foo" (by decide) "barfoo"⟩, rfl, rfl⟩

/-! ## Render orchestration (Renderer.renderFileWithPlugins) -/

/-- View of the plugin-hook dispatcher used by renderFileWithPlugins.
The single variadic processEventHandlers collaborator is modelled by its
two call shapes: onPre for the one-payload call before rendering and
onPost for the two-payload call after rendering, the latter resolving to
an updated pair. -/
structure PluginDispatcher (F R E : Type) where
  onPre : E → F → F
  onPost : E → F → R → F × R

/-- Observable step of one renderFileWithPlugins run, recorded in order:
a PRE dispatch, the invocation of the render capability of the file, or a
POST dispatch. -/
inductive RenderStep (E : Type) where
  | preDispatch (e : E)
  | renderCall
  | postDispatch (e : E)
deriving DecidableEq, Repr

/-- Embedding of Renderer.renderFileWithPlugins. When eventBefore is given
the dispatcher is invoked with the file and its result is discarded (the
file binding is not replaced); the render capability of the file is then
invoked with siteData; when eventAfter is given the dispatcher is invoked
with the file and the rendered file, and the resulting pair replaces both
bindings. The returned value pairs the final bindings with the trace of
dispatch and render steps performed. -/
def renderFileWithPlugins {F R E S : Type} (d : PluginDispatcher F R E)
    (render : F → S → R) (file : F) (siteData : S)
    (eventBefore eventAfter : Option E) : (F × R) × List (RenderStep E) :=
  let preTrace : List (RenderStep E) :=
    match eventBefore with
    | some e =>
        let _preResult := d.onPre e file
        [RenderStep.preDispatch e]
    | none => []
  let renderedFile := render file siteData
  match eventAfter with
  | some e =>
      let post := d.onPost e file renderedFile
      ((post.1, post.2), preTrace ++ [RenderStep.renderCall, RenderStep.postDispatch e])
  | none => ((file, renderedFile), preTrace ++ [RenderStep.renderCall])

/-- C4: renderFileWithPlugins dispatches PRE exactly when eventBefore is
given, never rebinds to the PRE dispatch result (the outcome is unchanged
under any replacement of onPre), always invokes the render capability,
dispatches POST exactly when eventAfter is given with the file and the
rendered file as payload, and returns exactly the final pair; in
particular with eventBefore absent and eventAfter given there is no PRE
dispatch, the render capability runs, and the result is exactly the pair
POST resolved to. -/
theorem c4_render_file_with_plugins :
    (∀ (F R E S : Type) (d : PluginDispatcher F R E) (render : F → S → R)
        (file : F) (siteData : S) (eb ea : Option E) (e : E),
        (RenderStep.preDispatch e
            ∈ (renderFileWithPlugins d render file siteData eb ea).2)
          ↔ eb = some e)
    ∧ (∀ (F R E S : Type) (d : PluginDispatcher F R E) (render : F → S → R)
        (file : F) (siteData : S) (eb ea : Option E),
        RenderStep.renderCall
          ∈ (renderFileWithPlugins d render file siteData eb ea).2)
    ∧ (∀ (F R E S : Type) (d : PluginDispatcher F R E) (render : F → S → R)
        (file : F) (siteData : S) (eb ea : Option E) (e : E),
        (RenderStep.postDispatch e
            ∈ (renderFileWithPlugins d render file siteData eb ea).2)
          ↔ ea = some e)
    ∧ (∀ (F R E S : Type) (d : PluginDispatcher F R E) (render : F → S → R)
        (file : F) (siteData : S) (eb : Option E) (e : E),
        (renderFileWithPlugins d render file siteData eb (some e)).1
          = d.onPost e file (render file siteData))
    ∧ (∀ (F R E S : Type) (d : PluginDispatcher F R E) (render : F → S → R)
        (file : F) (siteData : S) (eb : Option E),
        (renderFileWithPlugins d render file siteData eb none).1
          = (file, render file siteData))
    ∧ (∀ (F R E S : Type) (d d2 : PluginDispatcher F R E) (render : F → S → R)
        (file : F) (siteData : S) (eb ea : Option E), d.onPost = d2.onPost →
        renderFileWithPlugins d render file siteData eb ea
          = renderFileWithPlugins d2 render file siteData eb ea)
    ∧ (∀ (F R E S : Type) (d : PluginDispatcher F R E) (render : F → S → R)
        (file : F) (siteData : S) (e : E),
        renderFileWithPlugins d render file siteData none (some e)
          = (((d.onPost e file (render file siteData)).1,
              (d.onPost e file (render file siteData)).2),
             [RenderStep.renderCall, RenderStep.postDispatch e])) := by
  refine ⟨?_, ?_, ?_, ?_, ?_, ?_, ?_⟩
  · intro F R E S d render file siteData eb ea e
    cases eb <;> cases ea <;> simp [renderFileWithPlugins, eq_comm]
  · intro F R E S d render file siteData eb ea
    cases eb <;> cases ea <;> simp [renderFileWithPlugins]
  · intro F R E S d render file siteData eb ea e
    cases eb <;> cases ea <;> simp [renderFileWithPlugins, eq_comm]
  · intro F R E S d render file siteData eb e
    cases eb <;> rfl
  · intro F R E S d render file siteData eb
    cases eb <;> rfl
  · intro F R E S d d2 render file siteData eb ea hpost
    cases eb <;> cases ea <;> simp [renderFileWithPlugins, hpost]
  · intro F R E S d render file siteData e
    rfl

/-- C4 witness: a concrete run over natural numbers with eventBefore
absent and eventAfter given, instantiating the PRE-independence conjunct
at two dispatchers differing only in onPre. -/
theorem c4_render_file_with_plugins_witness :
    ((⟨fun _ f => f + 1, fun e f r => (f + e, r + e)⟩ :
        PluginDispatcher Nat Nat Nat).onPost
      = (⟨fun _ f => f + 2, fun e f r => (f + e, r + e)⟩ :
        PluginDispatcher Nat Nat Nat).onPost)
    ∧ renderFileWithPlugins
        (⟨fun _ f => f + 1, fun e f r => (f + e, r + e)⟩ :
          PluginDispatcher Nat Nat Nat)
        (fun f s => f * s) 3 5 none (some 7)
      = renderFileWithPlugins
          (⟨fun _ f => f + 2, fun e f r => (f + e, r + e)⟩ :
            PluginDispatcher Nat Nat Nat)
          (fun f s => f * s) 3 5 none (some 7) :=
  ⟨rfl,
    c4_render_file_with_plugins.2.2.2.2.2.1 Nat Nat Nat Nat
      ⟨fun _ f => f + 1, fun e f r => (f + e, r + e)⟩
      ⟨fun _ f => f + 2, fun e f r => (f + e, r + e)⟩
      (fun f s => f * s) 3 5 none (some 7) rfl⟩

/-! ## Configuration store (class Config) -/

/-- Well-known project-relative name of the configuration artifact.
Modelled from the spec: the Constants module is not under src, the spec
describes a loadable artifact at a well-known project-relative name used
as the source identifier of validation errors. -/
def configFilename : String := "reptar.config.js"

/-- Absoluteness of a path string: it begins with a slash. Embeds the
notion of absolute path used by the node path module on posix. -/
def isAbsolute (s : String) : Bool :=
  s.data.head? == some '/'

/-- Embedding of the node path.resolve collaborator on two arguments:
an absolute second argument wins, otherwise it is joined under the first.
Segment normalization performed by path.resolve is orthogonal to the
claims and omitted. -/
def pathResolve (base p : String) : String :=
  if isAbsolute p then p else base ++ "/" ++ p

/-- Named path entries of the configuration: the source entry that anchors
everything else, and the remaining entries (destination, templates, data)
in declaration order. Mirrors the path object iterated by Config.update
with the source key treated specially. -/
structure PathSet where
  source : String
  others : List (String × String)
deriving DecidableEq, Repr

/-- Module-or-value entry as found in middlewares, lifecycle lists and
asset use fields: either a string naming a module or an implementation
value (α stands for loaded implementations). -/
inductive UseValue (α : Type) where
  | str (s : String)
  | impl (f : α)
deriving DecidableEq, Repr

/-- Asset rule of the configuration: a test value coerced by
valueToFunction and a use value resolved against the built-in processor
table or the module lookup. -/
structure AssetRule (α : Type) where
  test : MatchValue
  use : UseValue α

/-- Claim-relevant shape of the configuration tree held in the private
raw field of Config. Keys of the configuration never touched by the
normalization steps of update (site, collections, markdown, server,
slug, and the scalar file keys) are omitted from the model. -/
structure RawConfig (α : Type) where
  path : PathSet
  fileDefaults : List DefaultRule
  ignore : List MatchValue
  middlewares : List (UseValue α)
  lifecycle : List (String × List (UseValue α))
  assets : List (AssetRule α)

/-- State of one Config instance: the root directory and the raw tree. -/
structure Config (α : Type) where
  root : String
  raw : RawConfig α

/-- Raw tree holding no entries, standing for the empty object created by
the Config constructor before the first update. -/
def emptyRaw {α : Type} : RawConfig α :=
  { path := { source := "", others := [] }, fileDefaults := [],
    ignore := [], middlewares := [], lifecycle := [], assets := [] }

/-- Result loaded from the configuration artifact: either the tree itself
or a zero-argument factory producing it, mirroring the isFunction test at
the top of Config.update. -/
inductive LoadedConfig (α : Type) where
  | tree (t : RawConfig α)
  | factory (f : Unit → RawConfig α)

/-- Evaluation of the loaded artifact: a factory is invoked once, a plain
tree passes through. -/
def evalLoadedConfig {α : Type} : LoadedConfig α → RawConfig α
  | LoadedConfig.tree t => t
  | LoadedConfig.factory f => f ()

/-- Errors thrown by Config.update: the validation error carrying the
source identifier and the validator message, and the module-resolution
error carrying the module name that could not be located. -/
inductive UpdateError where
  | validation (sourceId : String) (message : String)
  | moduleResolution (moduleName : String)
deriving DecidableEq, Repr

/-- Map of a fallible resolution over a list, stopping at the first
error, the way an exception aborts a JavaScript map callback. -/
def mapExcept {α β ε : Type} (f : α → Except ε β) : List α → Except ε (List β)
  | [] => Except.ok []
  | x :: xs =>
      match f x with
      | Except.error e => Except.error e
      | Except.ok y =>
          match mapExcept f xs with
          | Except.error e => Except.error e
          | Except.ok ys => Except.ok (y :: ys)

/-- Embedding of requireLocalModule: the external module-lookup
collaborator (resolve.sync followed by require) is a parameter taking the
base directory and the module name; a missing module is the
module-resolution error. -/
def requireLocalModule {α : Type} (lookup : String → String → Option α)
    (basedir moduleName : String) : Except UpdateError α :=
  match lookup basedir moduleName with
  | some m => Except.ok m
  | none => Except.error (UpdateError.moduleResolution moduleName)

/-- Embedding of resolveMiddlewareModules from Config.update: a string is
resolved through requireLocalModule from the store root, everything else
is returned unchanged. -/
def resolveMiddlewareModules {α : Type} (lookup : String → String → Option α)
    (basedir : String) : UseValue α → Except UpdateError (UseValue α)
  | UseValue.str s => (requireLocalModule lookup basedir s).map UseValue.impl
  | UseValue.impl f => Except.ok (UseValue.impl f)

/-- Embedding of the use-resolution step for assets in Config.update: a
string first consults the built-in processor table (whose entries are
loaded modules, hence truthy) and only on a miss falls back to
requireLocalModule; a non-string use value passes through unchanged. -/
def resolveAssetUse {α : Type} (builtins : List (String × α))
    (lookup : String → String → Option α) (basedir : String) :
    UseValue α → Except UpdateError (UseValue α)
  | UseValue.str s =>
      match List.lookup s builtins with
      | some b => Except.ok (UseValue.impl b)
      | none => (requireLocalModule lookup basedir s).map UseValue.impl
  | UseValue.impl f => Except.ok (UseValue.impl f)

/-- Embedding of the per-asset normalization of Config.update: the use
value is resolved, then the test value is coerced by valueToFunction. -/
def resolveAsset {α : Type} (builtins : List (String × α))
    (lookup : String → String → Option α) (basedir : String)
    (a : AssetRule α) : Except UpdateError (AssetRule α) :=
  (resolveAssetUse builtins lookup basedir a.use).map
    (fun u => { test := MatchValue.func (valueToFunction a.test), use := u })

/-- Absolute resolution of the scope path of one sorted default rule
against the resolved source path, as performed after the sort. -/
def resolveScopePath (src : String) (d : DefaultRule) : DefaultRule :=
  match d.scope.path with
  | some p => { d with scope := { d.scope with path := some (pathResolve src p) } }
  | none => d

/-- Stage of Config.update that cannot fail, applied right after the
validated tree is stored into the raw field: the source path is resolved
against the root, every other path entry against the resolved source, the
default rules are sorted and their scope paths resolved, and the ignore
entries are coerced by valueToFunction. -/
def stageRaw {α : Type} (root : String) (value : RawConfig α) : RawConfig α :=
  let src := pathResolve root value.path.source
  { value with
    path := { source := src,
              others := value.path.others.map (fun kv => (kv.1, pathResolve src kv.2)) },
    fileDefaults := (sortDefaults value.fileDefaults).map (resolveScopePath src),
    ignore := value.ignore.map (fun v => MatchValue.func (valueToFunction v)) }

/-- Per-key resolution of the lifecycle map, mirroring the lodash forEach
in Config.update that reassigns one key at a time: on a failure the keys
already processed keep their resolved lists and the failing key with the
remaining keys keep their original lists. -/
def resolveLifecycleEntries {α : Type}
    (resolveOne : UseValue α → Except UpdateError (UseValue α)) :
    List (String × List (UseValue α)) →
      Except UpdateError Unit × List (String × List (UseValue α))
  | [] => (Except.ok (), [])
  | (k, vs) :: rest =>
      match mapExcept resolveOne vs with
      | Except.error e => (Except.error e, (k, vs) :: rest)
      | Except.ok vs2 =>
          let tail := resolveLifecycleEntries resolveOne rest
          (tail.1, (k, vs2) :: tail.2)

/-- Embedding of Config.update. The loaded artifact is evaluated, handed
to the external validator-and-fill collaborator (the Joi schema validate
call followed by the lodash defaultsDeep merge with the zero-input schema
defaults); a validation error throws with the source identifier and the
validator message before the raw field is touched. On success the raw
field is immediately replaced by the staged tree, after which middleware,
lifecycle and asset resolution mutate it further; a module-resolution
failure therefore aborts with the raw field already holding the staged,
partially-normalized tree, exactly as the mutation order of the source
dictates. -/
def Config.update {α : Type}
    (validateFill : RawConfig α → Except String (RawConfig α))
    (lookup : String → String → Option α)
    (assetProcessors : List (String × α))
    (loaded : LoadedConfig α) (st : Config α) :
    Except UpdateError Unit × Config α :=
  let config := evalLoadedConfig loaded
  match validateFill config with
  | Except.error msg =>
      (Except.error (UpdateError.validation configFilename msg), st)
  | Except.ok value =>
      let raw3 := stageRaw st.root value
      match mapExcept (resolveMiddlewareModules lookup st.root) raw3.middlewares with
      | Except.error e => (Except.error e, { st with raw := raw3 })
      | Except.ok mws =>
          let raw4 := { raw3 with middlewares := mws }
          let lcOut := resolveLifecycleEntries
            (resolveMiddlewareModules lookup st.root) raw4.lifecycle
          let raw5 := { raw4 with lifecycle := lcOut.2 }
          match lcOut.1 with
          | Except.error e => (Except.error e, { st with raw := raw5 })
          | Except.ok _ =>
              match mapExcept (resolveAsset assetProcessors lookup st.root) raw5.assets with
              | Except.error e => (Except.error e, { st with raw := raw5 })
              | Except.ok as2 => (Except.ok (), { st with raw := { raw5 with assets := as2 } })

/-! ## Structured lookup (Config.get) -/

/-- JavaScript value tree as seen by the lodash get call in Config.get:
undefined and null are distinguished (a missing key yields undefined, a
stored null stays null), together with booleans, numbers, strings,
arrays, objects, regular expressions, predicate functions and loaded
module handles. -/
inductive JsValue (α : Type) where
  | undef
  | null
  | bool (b : Bool)
  | num (n : Int)
  | str (s : String)
  | arr (elems : List (JsValue α))
  | obj (fields : List (String × JsValue α))
  | regexVal (test : String → Bool)
  | funcVal (f : String → Bool)
  | ext (m : α)

/-- First-match association lookup over object fields. -/
def assocLookup {β : Type} : List (String × β) → String → Option β
  | [], _ => none
  | (k, v) :: rest, key => if k == key then some v else assocLookup rest key

/-- Split of a dotted object path into its keys, embedding the lodash
string-path parsing for the dot-separated paths used by the program. -/
def splitDotted : List Char → List Char → List String
  | [], acc => [String.mk acc.reverse]
  | c :: cs, acc =>
      if c = '.' then String.mk acc.reverse :: splitDotted cs []
      else splitDotted cs (c :: acc)

/-- Keys of a dotted object path string. -/
def splitPath (s : String) : List String :=
  splitDotted s.data []

/-- Embedding of the lodash get call: walk the keys through nested
objects, yielding undefined as soon as a key is missing or the current
value is not an object. -/
def jsGet {α : Type} : List String → JsValue α → JsValue α
  | [], v => v
  | k :: ks, JsValue.obj fields =>
      match assocLookup fields k with
      | some v => jsGet ks v
      | none => JsValue.undef
  | _ :: _, _ => JsValue.undef

/-- Nullish test of a value, embedding the loose equality of the value
with null that Config.get performs: true exactly on null and undefined. -/
def isNullish {α : Type} : JsValue α → Bool
  | JsValue.undef => true
  | JsValue.null => true
  | _ => false

/-- Error thrown by Config.get when the looked-up value is nullish,
carrying the requested object path. -/
inductive GetError where
  | configPathNotFound (objectPath : String)
deriving DecidableEq, Repr

/-- Embedding of the body of Config.get over the value tree: an omitted
path returns the whole tree, a given path is looked up structurally and a
nullish result throws the path-not-found error. -/
def jsConfigGet {α : Type} (raw : JsValue α) :
    Option String → Except GetError (JsValue α)
  | none => Except.ok raw
  | some objectPath =>
      let value := jsGet (splitPath objectPath) raw
      if isNullish value then
        Except.error (GetError.configPathNotFound objectPath)
      else Except.ok value

/-- Object view of a match value as stored in the raw tree. -/
def MatchValue.toJs {α : Type} : MatchValue → JsValue α
  | MatchValue.str s => JsValue.str s
  | MatchValue.regex t => JsValue.regexVal t
  | MatchValue.func f => JsValue.funcVal f

/-- Object view of a module-or-value entry as stored in the raw tree. -/
def UseValue.toJs {α : Type} : UseValue α → JsValue α
  | UseValue.str s => JsValue.str s
  | UseValue.impl m => JsValue.ext m

/-- Object view of a default-rule scope: absent keys are omitted. -/
def scopeToJs {α : Type} (s : DefaultScope) : JsValue α :=
  JsValue.obj
    ((match s.path with
      | some p => [("path", JsValue.str p)]
      | none => [])
      ++ (match s.metadata with
          | some md =>
              [("metadata",
                JsValue.obj (md.map (fun kv => (kv.1, JsValue.bool kv.2))))]
          | none => []))

/-- Object view of a default rule. -/
def defaultRuleToJs {α : Type} (d : DefaultRule) : JsValue α :=
  JsValue.obj
    [("scope", scopeToJs d.scope),
     ("values", JsValue.obj (d.values.map (fun kv => (kv.1, JsValue.str kv.2))))]

/-- Object view of the modelled raw configuration tree, the shape walked
by the lodash get call of Config.get. -/
def rawToJs {α : Type} (r : RawConfig α) : JsValue α :=
  JsValue.obj
    [("path", JsValue.obj
        (("source", JsValue.str r.path.source)
          :: r.path.others.map (fun kv => (kv.1, JsValue.str kv.2)))),
     ("file", JsValue.obj
        [("defaults", JsValue.arr (r.fileDefaults.map defaultRuleToJs))]),
     ("ignore", JsValue.arr (r.ignore.map MatchValue.toJs)),
     ("middlewares", JsValue.arr (r.middlewares.map UseValue.toJs)),
     ("lifecycle", JsValue.obj
        (r.lifecycle.map (fun kv => (kv.1, JsValue.arr (kv.2.map UseValue.toJs))))),
     ("assets", JsValue.arr
        (r.assets.map (fun a =>
          JsValue.obj [("test", a.test.toJs), ("use", a.use.toJs)])))]

/-- Embedding of Config.get on a store: the lookup walks the object view
of the stored raw tree. -/
def Config.get {α : Type} (st : Config α) (objectPath : Option String) :
    Except GetError (JsValue α) :=
  jsConfigGet (rawToJs st.raw) objectPath

/-! ## Concrete fixtures -/

/-- Validator-and-fill collaborator that accepts every tree unchanged. -/
def vfOk {α : Type} : RawConfig α → Except String (RawConfig α) :=
  Except.ok

/-- Validator-and-fill collaborator that rejects every tree. -/
def vfBad {α : Type} : RawConfig α → Except String (RawConfig α) :=
  fun _ => Except.error "invalid"

/-- Module lookup collaborator that locates no module. -/
def lkNone {α : Type} : String → String → Option α :=
  fun _ _ => none

/-- Concrete configuration tree mirroring the relative path block and the
three default rules of the default configuration file; loaded module
implementations are modelled by natural-number handles. -/
def sampleConfig : RawConfig Nat :=
  { path := { source := "./",
              others := [("destination", "./_site"),
                         ("templates", "./_templates"),
                         ("data", "./_data")] },
    fileDefaults := [ruleA, ruleB, ruleC],
    ignore := [],
    middlewares := [],
    lifecycle := [("willUpdate", []), ("didUpdate", [])],
    assets := [] }

/-- Concrete store rooted at an absolute directory, raw tree still empty. -/
def sampleStore : Config Nat :=
  { root := "/root", raw := emptyRaw }

/-- Store obtained from one successful update of the sample store. -/
def sampleUpdated : Config Nat :=
  (Config.update vfOk lkNone [] (LoadedConfig.tree sampleConfig) sampleStore).2

/-- Sample tree whose middlewares list names a module that the lookup
collaborator cannot locate. -/
def badMiddlewareConfig : RawConfig Nat :=
  { sampleConfig with middlewares := [UseValue.str "reptar-excerpt"] }

/-! ## C8: validation failure leaves the store untouched -/

/-- C8: when the validator reports an error, Config.update fails with the
validation error carrying the configuration source identifier and the
validator message, and the whole store, in particular the previously
stored raw tree, is returned unchanged. -/
theorem c8_validation_failure {α : Type}
    (validateFill : RawConfig α → Except String (RawConfig α))
    (lookup : String → String → Option α)
    (assetProcessors : List (String × α))
    (loaded : LoadedConfig α) (st : Config α) (msg : String)
    (h : validateFill (evalLoadedConfig loaded) = Except.error msg) :
    Config.update validateFill lookup assetProcessors loaded st
      = (Except.error (UpdateError.validation configFilename msg), st) := by
  simp only [Config.update, h]

/-- C8 witness: the rejecting validator on the sample store produces the
validation error with the source identifier and message, and the store is
unchanged. -/
theorem c8_validation_failure_witness :
    (vfBad (evalLoadedConfig (LoadedConfig.tree sampleConfig))
        = Except.error "invalid")
    ∧ Config.update vfBad lkNone [] (LoadedConfig.tree sampleConfig) sampleStore
        = (Except.error (UpdateError.validation configFilename "invalid"),
           sampleStore) :=
  ⟨rfl, c8_validation_failure vfBad lkNone [] (LoadedConfig.tree sampleConfig)
    sampleStore "invalid" rfl⟩

/-! ## C2: update is not all-or-nothing beyond validation -/

/-- C2 counterexample: an update failing at middleware module resolution
reports the module-resolution error, yet the stored raw tree observable
afterwards differs from the previously stored one: its source path is
already the freshly resolved value. -/
theorem c2_counterexample :
    ((Config.update vfOk lkNone [] (LoadedConfig.tree badMiddlewareConfig)
        sampleStore).1
      = Except.error (UpdateError.moduleResolution "reptar-excerpt"))
    ∧ ((Config.update vfOk lkNone [] (LoadedConfig.tree badMiddlewareConfig)
        sampleStore).2.raw.path.source = "/root/./")
    ∧ (sampleStore.raw.path.source = "")
    ∧ ((Config.update vfOk lkNone [] (LoadedConfig.tree badMiddlewareConfig)
        sampleStore).2.raw ≠ sampleStore.raw) := by
  refine ⟨rfl, rfl, rfl, ?_⟩
  intro h
  have h2 := congrArg (fun r : RawConfig Nat => r.path.source) h
  exact absurd h2 (by decide)

/-- Sample tree whose only lifecycle list names a module that the lookup
collaborator cannot locate. -/
def badLifecycleConfig : RawConfig Nat :=
  { sampleConfig with lifecycle := [("willUpdate", [UseValue.str "noop-mw"])] }

/-- Sample tree whose only asset rule uses a processor name outside the
built-in table that the lookup collaborator cannot locate. -/
def badAssetConfig : RawConfig Nat :=
  { sampleConfig with
    assets := [{ test := MatchValue.str "less", use := UseValue.str "less-processor" }] }

/-- C2 (amended): Config.update is all-or-nothing only with respect to
schema validation. A validation failure returns the store unchanged, but
a module-resolution failure of a middleware, of a lifecycle hook or of an
asset processor occurs after the staged tree has replaced the stored raw
tree, so the store then holds the partially-normalized new tree instead
of the previous one: on a middleware failure the staged tree itself, on a
lifecycle failure the staged tree with middlewares resolved and the
lifecycle keys processed so far resolved, on an asset failure the staged
tree with middlewares and lifecycle resolved. -/
theorem c2_update_atomicity_amended :
    (∀ (α : Type) (validateFill : RawConfig α → Except String (RawConfig α))
        (lookup : String → String → Option α)
        (assetProcessors : List (String × α))
        (loaded : LoadedConfig α) (st : Config α) (msg : String),
        validateFill (evalLoadedConfig loaded) = Except.error msg →
        Config.update validateFill lookup assetProcessors loaded st
          = (Except.error (UpdateError.validation configFilename msg), st))
    ∧ (∀ (α : Type) (validateFill : RawConfig α → Except String (RawConfig α))
        (lookup : String → String → Option α)
        (assetProcessors : List (String × α))
        (loaded : LoadedConfig α) (st : Config α) (value : RawConfig α)
        (e : UpdateError),
        validateFill (evalLoadedConfig loaded) = Except.ok value →
        mapExcept (resolveMiddlewareModules lookup st.root)
            (stageRaw st.root value).middlewares = Except.error e →
        Config.update validateFill lookup assetProcessors loaded st
          = (Except.error e, { st with raw := stageRaw st.root value }))
    ∧ (∀ (α : Type) (validateFill : RawConfig α → Except String (RawConfig α))
        (lookup : String → String → Option α)
        (assetProcessors : List (String × α))
        (loaded : LoadedConfig α) (st : Config α) (value : RawConfig α)
        (mws : List (UseValue α)) (e : UpdateError),
        validateFill (evalLoadedConfig loaded) = Except.ok value →
        mapExcept (resolveMiddlewareModules lookup st.root)
            (stageRaw st.root value).middlewares = Except.ok mws →
        (resolveLifecycleEntries (resolveMiddlewareModules lookup st.root)
            (stageRaw st.root value).lifecycle).1 = Except.error e →
        Config.update validateFill lookup assetProcessors loaded st
          = (Except.error e,
             { st with raw :=
                { stageRaw st.root value with
                  middlewares := mws,
                  lifecycle := (resolveLifecycleEntries
                    (resolveMiddlewareModules lookup st.root)
                    (stageRaw st.root value).lifecycle).2 } }))
    ∧ (∀ (α : Type) (validateFill : RawConfig α → Except String (RawConfig α))
        (lookup : String → String → Option α)
        (assetProcessors : List (String × α))
        (loaded : LoadedConfig α) (st : Config α) (value : RawConfig α)
        (mws : List (UseValue α)) (e : UpdateError),
        validateFill (evalLoadedConfig loaded) = Except.ok value →
        mapExcept (resolveMiddlewareModules lookup st.root)
            (stageRaw st.root value).middlewares = Except.ok mws →
        (resolveLifecycleEntries (resolveMiddlewareModules lookup st.root)
            (stageRaw st.root value).lifecycle).1 = Except.ok () →
        mapExcept (resolveAsset assetProcessors lookup st.root)
            (stageRaw st.root value).assets = Except.error e →
        Config.update validateFill lookup assetProcessors loaded st
          = (Except.error e,
             { st with raw :=
                { stageRaw st.root value with
                  middlewares := mws,
                  lifecycle := (resolveLifecycleEntries
                    (resolveMiddlewareModules lookup st.root)
                    (stageRaw st.root value).lifecycle).2 } })) := by
  refine ⟨?_, ?_, ?_, ?_⟩
  · intro α validateFill lookup assetProcessors loaded st msg h
    simp only [Config.update, h]
  · intro α validateFill lookup assetProcessors loaded st value e hvf hm
    simp only [Config.update, hvf, hm]
  · intro α validateFill lookup assetProcessors loaded st value mws e hvf hm hl
    simp only [Config.update, hvf, hm, hl]
  · intro α validateFill lookup assetProcessors loaded st value mws e hvf hm hl ha
    simp only [Config.update, hvf, hm, hl, ha]

/-- C2 amended witness: three concrete failing updates, one per
post-validation resolution stage, satisfy the hypotheses of the last
three conjuncts, and each resulting store holds the corresponding
partially-normalized tree. -/
theorem c2_update_atomicity_amended_witness :
    (((vfOk (evalLoadedConfig (LoadedConfig.tree badMiddlewareConfig))
        = Except.ok badMiddlewareConfig)
      ∧ (mapExcept (resolveMiddlewareModules lkNone sampleStore.root)
          (stageRaw sampleStore.root badMiddlewareConfig).middlewares
        = Except.error (UpdateError.moduleResolution "reptar-excerpt")))
    ∧ Config.update vfOk lkNone [] (LoadedConfig.tree badMiddlewareConfig)
        sampleStore
      = (Except.error (UpdateError.moduleResolution "reptar-excerpt"),
         { sampleStore with raw := stageRaw sampleStore.root badMiddlewareConfig }))
    ∧ (((mapExcept (resolveMiddlewareModules lkNone sampleStore.root)
          (stageRaw sampleStore.root badLifecycleConfig).middlewares
        = Except.ok [])
      ∧ ((resolveLifecycleEntries (resolveMiddlewareModules lkNone sampleStore.root)
          (stageRaw sampleStore.root badLifecycleConfig).lifecycle).1
        = Except.error (UpdateError.moduleResolution "noop-mw")))
    ∧ Config.update vfOk lkNone [] (LoadedConfig.tree badLifecycleConfig)
        sampleStore
      = (Except.error (UpdateError.moduleResolution "noop-mw"),
         { sampleStore with raw :=
            { stageRaw sampleStore.root badLifecycleConfig with
              middlewares := [],
              lifecycle := (resolveLifecycleEntries
                (resolveMiddlewareModules lkNone sampleStore.root)
                (stageRaw sampleStore.root badLifecycleConfig).lifecycle).2 } }))
    ∧ ((((resolveLifecycleEntries (resolveMiddlewareModules lkNone sampleStore.root)
          (stageRaw sampleStore.root badAssetConfig).lifecycle).1
        = Except.ok ())
      ∧ (mapExcept (resolveAsset [] lkNone sampleStore.root)
          (stageRaw sampleStore.root badAssetConfig).assets
        = Except.error (UpdateError.moduleResolution "less-processor")))
    ∧ Config.update vfOk lkNone [] (LoadedConfig.tree badAssetConfig)
        sampleStore
      = (Except.error (UpdateError.moduleResolution "less-processor"),
         { sampleStore with raw :=
            { stageRaw sampleStore.root badAssetConfig with
              middlewares := [],
              lifecycle := (resolveLifecycleEntries
                (resolveMiddlewareModules lkNone sampleStore.root)
                (stageRaw sampleStore.root badAssetConfig).lifecycle).2 } })) :=
  ⟨⟨⟨rfl, rfl⟩,
    c2_update_atomicity_amended.2.1 Nat vfOk lkNone []
      (LoadedConfig.tree badMiddlewareConfig) sampleStore badMiddlewareConfig
      (UpdateError.moduleResolution "reptar-excerpt") rfl rfl⟩,
   ⟨⟨rfl, rfl⟩,
    c2_update_atomicity_amended.2.2.1 Nat vfOk lkNone []
      (LoadedConfig.tree badLifecycleConfig) sampleStore badLifecycleConfig []
      (UpdateError.moduleResolution "noop-mw") rfl rfl rfl⟩,
   ⟨⟨rfl, rfl⟩,
    c2_update_atomicity_amended.2.2.2 Nat vfOk lkNone []
      (LoadedConfig.tree badAssetConfig) sampleStore badAssetConfig []
      (UpdateError.moduleResolution "less-processor") rfl rfl rfl rfl⟩⟩

/-! ## C5 and C9: resolved paths and idempotence -/

/-- Resolution against an absolute base yields an absolute path. -/
theorem isAbsolute_pathResolve (base p : String)
    (hb : isAbsolute base = true) : isAbsolute (pathResolve base p) = true := by
  unfold pathResolve
  by_cases hp : isAbsolute p = true
  · rw [if_pos hp]; exact hp
  · rw [if_neg hp]
    unfold isAbsolute at hb ⊢
    obtain ⟨d⟩ := base
    cases d with
    | nil => simp at hb
    | cons c cs =>
        have hdata : ((String.mk (c :: cs) ++ "/") ++ p).data
            = c :: ((cs ++ ['/']) ++ p.data) := rfl
        rw [hdata]
        simpa using hb

/-- Characterization of a successful update: the resulting raw tree is
the staged tree of the validated value with middlewares, lifecycle and
assets replaced by their resolved forms. -/
theorem update_success_raw {α : Type}
    (validateFill : RawConfig α → Except String (RawConfig α))
    (lookup : String → String → Option α)
    (assetProcessors : List (String × α))
    (loaded : LoadedConfig α) (st : Config α) (value : RawConfig α)
    (hvf : validateFill (evalLoadedConfig loaded) = Except.ok value)
    (hok : (Config.update validateFill lookup assetProcessors loaded st).1
      = Except.ok ()) :
    ∃ mws lc as2,
      (Config.update validateFill lookup assetProcessors loaded st).2.raw
        = { stageRaw st.root value with
            middlewares := mws, lifecycle := lc, assets := as2 } := by
  simp only [Config.update, hvf] at hok ⊢
  cases hm : mapExcept (resolveMiddlewareModules lookup st.root)
      (stageRaw st.root value).middlewares with
  | error e => rw [hm] at hok; simp at hok
  | ok mws =>
    rw [hm] at hok
    cases hl : (resolveLifecycleEntries (resolveMiddlewareModules lookup st.root)
        (stageRaw st.root value).lifecycle).1 with
    | error e => rw [hl] at hok; simp at hok
    | ok u =>
      rw [hl] at hok
      cases ha : mapExcept (resolveAsset assetProcessors lookup st.root)
          (stageRaw st.root value).assets with
      | error e => rw [ha] at hok; simp at hok
      | ok as2 =>
        exact ⟨mws, _, as2, rfl⟩

/-- C5: after every successful update the stored source path equals the
configured source resolved against the store root, every other stored
path entry equals its configured value resolved against the resolved
source rather than against the root, and with an absolute root every
stored path entry is absolute. -/
theorem c5_path_resolution {α : Type}
    (validateFill : RawConfig α → Except String (RawConfig α))
    (lookup : String → String → Option α)
    (assetProcessors : List (String × α))
    (loaded : LoadedConfig α) (st : Config α) (value : RawConfig α)
    (hvf : validateFill (evalLoadedConfig loaded) = Except.ok value)
    (hok : (Config.update validateFill lookup assetProcessors loaded st).1
      = Except.ok ()) :
    ((Config.update validateFill lookup assetProcessors loaded st).2.raw.path.source
        = pathResolve st.root value.path.source)
    ∧ ((Config.update validateFill lookup assetProcessors loaded st).2.raw.path.others
        = value.path.others.map (fun kv =>
            (kv.1, pathResolve (pathResolve st.root value.path.source) kv.2)))
    ∧ (isAbsolute st.root = true →
        (isAbsolute
            (Config.update validateFill lookup assetProcessors loaded st).2.raw.path.source
          = true)
        ∧ ∀ kv ∈ (Config.update validateFill lookup assetProcessors
              loaded st).2.raw.path.others,
            isAbsolute kv.2 = true) := by
  obtain ⟨mws, lc, as2, hraw⟩ :=
    update_success_raw validateFill lookup assetProcessors loaded st value hvf hok
  have hsrc : (Config.update validateFill lookup assetProcessors
      loaded st).2.raw.path.source = pathResolve st.root value.path.source := by
    rw [hraw]; rfl
  have hoth : (Config.update validateFill lookup assetProcessors
      loaded st).2.raw.path.others
      = value.path.others.map (fun kv =>
          (kv.1, pathResolve (pathResolve st.root value.path.source) kv.2)) := by
    rw [hraw]; rfl
  refine ⟨hsrc, hoth, fun habs => ⟨?_, ?_⟩⟩
  · rw [hsrc]
    exact isAbsolute_pathResolve st.root value.path.source habs
  · intro kv hkv
    rw [hoth] at hkv
    obtain ⟨kv0, hmem, hkv0⟩ := List.mem_map.mp hkv
    rw [← hkv0]
    exact isAbsolute_pathResolve _ _ (isAbsolute_pathResolve _ _ habs)

/-- C5 witness: the sample update succeeds, its source resolves under the
absolute root, every other entry resolves under that source, and all
stored entries are absolute. -/
theorem c5_path_resolution_witness :
    ((vfOk (evalLoadedConfig (LoadedConfig.tree sampleConfig))
        = Except.ok sampleConfig)
      ∧ ((Config.update vfOk lkNone [] (LoadedConfig.tree sampleConfig)
            sampleStore).1 = Except.ok ()))
    ∧ (((Config.update vfOk lkNone [] (LoadedConfig.tree sampleConfig)
            sampleStore).2.raw.path.source
          = pathResolve sampleStore.root sampleConfig.path.source)
      ∧ ((Config.update vfOk lkNone [] (LoadedConfig.tree sampleConfig)
            sampleStore).2.raw.path.others
          = sampleConfig.path.others.map (fun kv =>
              (kv.1, pathResolve
                (pathResolve sampleStore.root sampleConfig.path.source) kv.2)))
      ∧ (isAbsolute sampleStore.root = true →
          (isAbsolute
              (Config.update vfOk lkNone [] (LoadedConfig.tree sampleConfig)
                sampleStore).2.raw.path.source
            = true)
          ∧ ∀ kv ∈ (Config.update vfOk lkNone [] (LoadedConfig.tree sampleConfig)
                sampleStore).2.raw.path.others,
              isAbsolute kv.2 = true)) :=
  ⟨⟨rfl, rfl⟩,
    c5_path_resolution vfOk lkNone [] (LoadedConfig.tree sampleConfig)
      sampleStore sampleConfig rfl rfl⟩

/-- Update leaves the root of the store unchanged in every branch. -/
theorem update_preserves_root {α : Type}
    (validateFill : RawConfig α → Except String (RawConfig α))
    (lookup : String → String → Option α)
    (assetProcessors : List (String × α))
    (loaded : LoadedConfig α) (st : Config α) :
    (Config.update validateFill lookup assetProcessors loaded st).2.root
      = st.root := by
  cases hvf : validateFill (evalLoadedConfig loaded) with
  | error msg => simp only [Config.update, hvf]
  | ok value =>
    simp only [Config.update, hvf]
    cases hm : mapExcept (resolveMiddlewareModules lookup st.root)
        (stageRaw st.root value).middlewares with
    | error e => rfl
    | ok mws =>
      cases hl : (resolveLifecycleEntries (resolveMiddlewareModules lookup st.root)
          (stageRaw st.root value).lifecycle).1 with
      | error e => rfl
      | ok u =>
        cases ha : mapExcept (resolveAsset assetProcessors lookup st.root)
            (stageRaw st.root value).assets with
        | error e => rfl
        | ok as2 => rfl

/-- Two successful updates from stores sharing one root produce equal raw
trees: the result depends only on the root and the loaded input, not on
the previously stored tree. -/
theorem update_raw_of_root_eq {α : Type}
    (validateFill : RawConfig α → Except String (RawConfig α))
    (lookup : String → String → Option α)
    (assetProcessors : List (String × α))
    (loaded : LoadedConfig α) (st1 st2 : Config α)
    (hroot : st1.root = st2.root)
    (h1 : (Config.update validateFill lookup assetProcessors loaded st1).1
      = Except.ok ())
    (h2 : (Config.update validateFill lookup assetProcessors loaded st2).1
      = Except.ok ()) :
    (Config.update validateFill lookup assetProcessors loaded st1).2.raw
      = (Config.update validateFill lookup assetProcessors loaded st2).2.raw := by
  cases hvf : validateFill (evalLoadedConfig loaded) with
  | error msg =>
      simp only [Config.update, hvf] at h1
      exact absurd h1 (by simp)
  | ok value =>
      simp only [Config.update, hvf]
      rw [← hroot]

/-- C9: over an unchanged configuration source, a second successful
update reproduces exactly the path set and the default-rule order of the
first one. -/
theorem c9_idempotent {α : Type}
    (validateFill : RawConfig α → Except String (RawConfig α))
    (lookup : String → String → Option α)
    (assetProcessors : List (String × α))
    (loaded : LoadedConfig α) (st : Config α)
    (h1 : (Config.update validateFill lookup assetProcessors loaded st).1
      = Except.ok ())
    (h2 : (Config.update validateFill lookup assetProcessors loaded
        (Config.update validateFill lookup assetProcessors loaded st).2).1
      = Except.ok ()) :
    ((Config.update validateFill lookup assetProcessors loaded
        (Config.update validateFill lookup assetProcessors loaded st).2).2.raw.path
      = (Config.update validateFill lookup assetProcessors loaded st).2.raw.path)
    ∧ ((Config.update validateFill lookup assetProcessors loaded
        (Config.update validateFill lookup assetProcessors loaded st).2).2.raw.fileDefaults
      = (Config.update validateFill lookup assetProcessors loaded st).2.raw.fileDefaults) := by
  have hroot := update_preserves_root validateFill lookup assetProcessors loaded st
  have hraw := update_raw_of_root_eq validateFill lookup assetProcessors loaded
    (Config.update validateFill lookup assetProcessors loaded st).2 st hroot h2 h1
  exact ⟨congrArg RawConfig.path hraw, congrArg RawConfig.fileDefaults hraw⟩

/-- C9 witness: two successive successful sample updates agree on the
stored path set and default order. -/
theorem c9_idempotent_witness :
    (((Config.update vfOk lkNone [] (LoadedConfig.tree sampleConfig)
          sampleStore).1 = Except.ok ())
      ∧ ((Config.update vfOk lkNone [] (LoadedConfig.tree sampleConfig)
          (Config.update vfOk lkNone [] (LoadedConfig.tree sampleConfig)
            sampleStore).2).1 = Except.ok ()))
    ∧ (((Config.update vfOk lkNone [] (LoadedConfig.tree sampleConfig)
          (Config.update vfOk lkNone [] (LoadedConfig.tree sampleConfig)
            sampleStore).2).2.raw.path
        = (Config.update vfOk lkNone [] (LoadedConfig.tree sampleConfig)
            sampleStore).2.raw.path)
      ∧ ((Config.update vfOk lkNone [] (LoadedConfig.tree sampleConfig)
          (Config.update vfOk lkNone [] (LoadedConfig.tree sampleConfig)
            sampleStore).2).2.raw.fileDefaults
        = (Config.update vfOk lkNone [] (LoadedConfig.tree sampleConfig)
            sampleStore).2.raw.fileDefaults)) :=
  ⟨⟨rfl, rfl⟩,
    c9_idempotent vfOk lkNone [] (LoadedConfig.tree sampleConfig) sampleStore
      rfl rfl⟩

/-! ## C7: callable resolution -/

/-- C7: the use-resolution of Config.update returns every non-string
value unchanged, returns the built-in implementation exactly for a string
matching a key of the built-in table without consulting the module
lookup, resolves any other string through the external module lookup from
the base directory, failing with the module-resolution error on a miss;
the middleware resolver is the same procedure with an empty built-in
table. -/
theorem c7_callable_resolver :
    (∀ (α : Type) (builtins : List (String × α))
        (lookup : String → String → Option α) (basedir : String) (f : α),
        resolveAssetUse builtins lookup basedir (UseValue.impl f)
          = Except.ok (UseValue.impl f))
    ∧ (∀ (α : Type) (builtins : List (String × α))
        (lookup lookup2 : String → String → Option α) (basedir s : String) (b : α),
        List.lookup s builtins = some b →
        (resolveAssetUse builtins lookup basedir (UseValue.str s)
            = Except.ok (UseValue.impl b))
          ∧ resolveAssetUse builtins lookup basedir (UseValue.str s)
            = resolveAssetUse builtins lookup2 basedir (UseValue.str s))
    ∧ (∀ (α : Type) (builtins : List (String × α))
        (lookup : String → String → Option α) (basedir s : String),
        List.lookup s builtins = none →
        resolveAssetUse builtins lookup basedir (UseValue.str s)
          = match lookup basedir s with
            | some m => Except.ok (UseValue.impl m)
            | none => Except.error (UpdateError.moduleResolution s))
    ∧ (∀ (α : Type) (lookup : String → String → Option α) (basedir : String)
        (v : UseValue α),
        resolveMiddlewareModules lookup basedir v
          = resolveAssetUse [] lookup basedir v)
    ∧ (resolveAssetUse [("less", (42 : Nat))] lkNone "/root" (UseValue.str "less")
        = Except.ok (UseValue.impl 42)) := by
  refine ⟨?_, ?_, ?_, ?_, rfl⟩
  · intro α builtins lookup basedir f
    rfl
  · intro α builtins lookup lookup2 basedir s b h
    constructor <;> simp [resolveAssetUse, h]
  · intro α builtins lookup basedir s h
    cases hx : lookup basedir s with
    | some m => simp [resolveAssetUse, h, requireLocalModule, hx, Except.map]
    | none => simp [resolveAssetUse, h, requireLocalModule, hx, Except.map]
  · intro α lookup basedir v
    cases v with
    | str s => rfl
    | impl f => rfl

/-- C7 witness: with a built-in table binding the name less to handle 42,
resolution of the string less returns 42 without consulting the module
lookup (two different lookups agree), and a name missing from the table
follows the module lookup. -/
theorem c7_callable_resolver_witness :
    ((List.lookup "less" [("less", (42 : Nat))] = some 42)
      ∧ (resolveAssetUse [("less", (42 : Nat))] lkNone "/root"
            (UseValue.str "less") = Except.ok (UseValue.impl 42))
      ∧ resolveAssetUse [("less", (42 : Nat))] lkNone "/root"
            (UseValue.str "less")
          = resolveAssetUse [("less", (42 : Nat))] (fun _ _ => some 7) "/root"
            (UseValue.str "less"))
    ∧ ((List.lookup "browserify" [("less", (42 : Nat))] = none)
      ∧ resolveAssetUse [("less", (42 : Nat))] lkNone "/root"
            (UseValue.str "browserify")
          = match lkNone "/root" "browserify" with
            | some m => Except.ok (UseValue.impl m)
            | none => Except.error (UpdateError.moduleResolution "browserify")) :=
  ⟨⟨rfl,
    (c7_callable_resolver.2.1 Nat [("less", 42)] lkNone (fun _ _ => some 7)
      "/root" "less" 42 rfl).1,
    (c7_callable_resolver.2.1 Nat [("less", 42)] lkNone (fun _ _ => some 7)
      "/root" "less" 42 rfl).2⟩,
   ⟨rfl,
    c7_callable_resolver.2.2.1 Nat [("less", 42)] lkNone "/root" "browserify"
      rfl⟩⟩

/-! ## C6 and C10: structured lookup -/

/-- C6: get without argument returns the whole stored tree; a successful
structured lookup of a non-nullish value is returned as is; a lookup that
finds no value fails with the path-not-found error; concretely, on the
updated sample store, the relatively configured source reads back as an
absolute path and a bogus path fails. -/
theorem c6_config_get :
    (∀ (α : Type) (raw : JsValue α), jsConfigGet raw none = Except.ok raw)
    ∧ (∀ (α : Type) (raw v : JsValue α) (p : String),
        jsGet (splitPath p) raw = v → isNullish v = false →
        jsConfigGet raw (some p) = Except.ok v)
    ∧ (∀ (α : Type) (raw : JsValue α) (p : String),
        jsGet (splitPath p) raw = JsValue.undef →
        jsConfigGet raw (some p) = Except.error (GetError.configPathNotFound p))
    ∧ (Config.get sampleUpdated none = Except.ok (rawToJs sampleUpdated.raw))
    ∧ (isAbsolute sampleConfig.path.source = false)
    ∧ (Config.get sampleUpdated (some "path.source")
        = Except.ok (JsValue.str "/root/./"))
    ∧ (isAbsolute "/root/./" = true)
    ∧ (Config.get sampleUpdated (some "nope.nope")
        = Except.error (GetError.configPathNotFound "nope.nope")) := by
  refine ⟨?_, ?_, ?_, rfl, rfl, rfl, rfl, rfl⟩
  · intro α raw
    rfl
  · intro α raw v p h1 h2
    simp [jsConfigGet, h1, h2]
  · intro α raw p h
    simp [jsConfigGet, h, isNullish]

/-- C6 witness: the general lookup clauses instantiated on the updated
sample store at the present path path.source and the absent path
nope.nope. -/
theorem c6_config_get_witness :
    ((jsGet (splitPath "path.source") (rawToJs sampleUpdated.raw)
        = JsValue.str "/root/./")
      ∧ (isNullish (JsValue.str "/root/./" : JsValue Nat) = false)
      ∧ jsConfigGet (rawToJs sampleUpdated.raw) (some "path.source")
          = Except.ok (JsValue.str "/root/./"))
    ∧ ((jsGet (splitPath "nope.nope") (rawToJs sampleUpdated.raw)
        = JsValue.undef)
      ∧ jsConfigGet (rawToJs sampleUpdated.raw) (some "nope.nope")
          = Except.error (GetError.configPathNotFound "nope.nope")) :=
  ⟨⟨rfl, rfl,
    c6_config_get.2.1 Nat (rawToJs sampleUpdated.raw)
      (JsValue.str "/root/./") "path.source" rfl rfl⟩,
   ⟨rfl,
    c6_config_get.2.2.1 Nat (rawToJs sampleUpdated.raw) "nope.nope" rfl⟩⟩

/-- Concrete tree holding the three falsy non-nullish values and a stored
null. -/
def falsyTree : JsValue Nat :=
  JsValue.obj
    [("a", JsValue.bool false), ("b", JsValue.num 0),
     ("c", JsValue.str ""), ("d", JsValue.null)]

/-- C10: a structured get never returns a nullish value: whatever it
returns is non-nullish, a stored null fails with the same path-not-found
error constructor as a genuinely missing path, and present falsy values
such as false, zero and the empty string are returned normally. -/
theorem c10_get_never_nullish :
    (∀ (α : Type) (raw : JsValue α) (p : String) (v : JsValue α),
        jsConfigGet raw (some p) = Except.ok v → isNullish v = false)
    ∧ (∀ (α : Type) (raw : JsValue α) (p : String),
        jsGet (splitPath p) raw = JsValue.null →
        jsConfigGet raw (some p) = Except.error (GetError.configPathNotFound p))
    ∧ (∀ (α : Type) (raw : JsValue α) (p : String),
        jsGet (splitPath p) raw = JsValue.undef →
        jsConfigGet raw (some p) = Except.error (GetError.configPathNotFound p))
    ∧ (jsConfigGet falsyTree (some "a") = Except.ok (JsValue.bool false))
    ∧ (jsConfigGet falsyTree (some "b") = Except.ok (JsValue.num 0))
    ∧ (jsConfigGet falsyTree (some "c") = Except.ok (JsValue.str ""))
    ∧ (jsConfigGet falsyTree (some "d")
        = Except.error (GetError.configPathNotFound "d"))
    ∧ (jsConfigGet falsyTree (some "missing")
        = Except.error (GetError.configPathNotFound "missing")) := by
  refine ⟨?_, ?_, ?_, rfl, rfl, rfl, rfl, rfl⟩
  · intro α raw p v h
    simp only [jsConfigGet] at h
    split at h
    · exact absurd h (by simp)
    · rename_i hcond
      injection h with hv
      rw [← hv]
      simpa using hcond
  · intro α raw p h
    simp [jsConfigGet, h, isNullish]
  · intro α raw p h
    simp [jsConfigGet, h, isNullish]

/-- C10 witness: the clauses instantiated on the falsy tree at a present
false value, the stored null and a missing key. -/
theorem c10_get_never_nullish_witness :
    ((jsConfigGet falsyTree (some "a") = Except.ok (JsValue.bool false))
      ∧ isNullish (JsValue.bool false : JsValue Nat) = false)
    ∧ ((jsGet (splitPath "d") falsyTree = JsValue.null)
      ∧ jsConfigGet falsyTree (some "d")
          = Except.error (GetError.configPathNotFound "d"))
    ∧ ((jsGet (splitPath "missing") falsyTree = JsValue.undef)
      ∧ jsConfigGet falsyTree (some "missing")
          = Except.error (GetError.configPathNotFound "missing")) :=
  ⟨⟨rfl,
    c10_get_never_nullish.1 Nat falsyTree "a" (JsValue.bool false) rfl⟩,
   ⟨rfl, c10_get_never_nullish.2.1 Nat falsyTree "d" rfl⟩,
   ⟨rfl, c10_get_never_nullish.2.2.1 Nat falsyTree "missing" rfl⟩⟩
